import Mathlib

/-!
# VTRX firmware — error/alarm queue subsystem: shallow embedding

Shallow embedding of the error-store subsystem of the `uw-loci/VTRX_firmware`
repository, together with proofs settling the frozen claims C1..C10.

Three drafts of the store are modelled, following the source files:

* namespace `Main`  — `src/main/main.ino` (array-backed store, no running
  counter; the displayed error count is recomputed by scanning in
  `updateLCD`).
* namespace `Part0` — `src/unnamed/part_000` (array-backed store with an
  incrementally maintained `errorCount` counter and an
  oldest-entry-eviction scan in `addErrorToQueue`).
* namespace `Part1` — `src/unnamed/part_001` (cppQueue/list-backed store;
  only its `cleanExpiredErrors` is needed by the claims).

Modelling conventions:
* Arduino `millis()` values (`unsigned long`, 32 bits on AVR) are `Nat`;
  the unsigned subtraction `a - b` that the C++ performs on them is
  `usub32 a b`, i.e. subtraction mod 2^32.
* Each store operation takes the sampled `millis()` value as an explicit
  `currentTime` argument, since the C++ reads the clock internally.
  Within one modelled call sequence a single sample is threaded where the
  original would re-read a (nondecreasing) clock; none of the settled
  claims depends on the clock advancing inside one pass.
* `digitalRead` results are `Nat` (`HIGH = 1`, `LOW = 0`) exactly as the
  C++ compares them.
* The C++ global arrays are zero-initialized: enum fields start at their
  first enumerator, `String`s empty, `bool`s false, integers 0.  This is
  `initialRecord` / `initialStore`.
* Serial/LCD output and the global `currentPressure` cache are pure
  observers with no effect on the error store and are not modelled,
  except for `updateLCD`, which does mutate the shared
  `currentErrorIndex` cursor and `lastErrorDisplayTime` and is therefore
  included.
* The sensor collaborator (972b driver, not part of this repository) is an
  environment: each configuration pass reads off a `SensorEnv` of command
  results.  `sciToDouble` string parsing and IEEE doubles live in that
  external driver, so the parsed pressure is supplied by the environment
  as an `Option ℚ` (`none` models NaN); the comparisons performed on it by
  the repository code are modelled over `ℚ`.
-/

/-- Fault identifiers, from `enum ErrorCode` in `src/main/main.ino`
(identical in `src/unnamed/part_000`). -/
inductive ErrorCode where
  | VALVE_CONTENTION
  | COLD_CATHODE_FAILURE
  | MICROPIRANI_FAILURE
  | UNEXPECTED_PRESSURE_ERROR
  | SAFETY_RELAY_ERROR
  | ARGON_GATE_VALVE_ERROR
  | TURBO_GATE_VALVE_ERROR
  | VENT_VALVE_OPEN_ERROR
  | PRESSURE_NACK_ERROR
  | PRESSURE_SENSE_ERROR
  | PRESSURE_UNIT_ERROR
  | USER_TAG_NACK_ERROR
  | RELAY_NACK_ERROR
  | PRESSURE_DOSE_WARNING
  | TURBO_GATE_VALVE_WARNING
  | TURBO_ROTOR_ON_WARNING
  | UNSAFE_FOR_HV_WARNING
deriving DecidableEq, Repr

export ErrorCode (VALVE_CONTENTION COLD_CATHODE_FAILURE MICROPIRANI_FAILURE
  UNEXPECTED_PRESSURE_ERROR SAFETY_RELAY_ERROR ARGON_GATE_VALVE_ERROR
  TURBO_GATE_VALVE_ERROR VENT_VALVE_OPEN_ERROR PRESSURE_NACK_ERROR
  PRESSURE_SENSE_ERROR PRESSURE_UNIT_ERROR USER_TAG_NACK_ERROR
  RELAY_NACK_ERROR PRESSURE_DOSE_WARNING TURBO_GATE_VALVE_WARNING
  TURBO_ROTOR_ON_WARNING UNSAFE_FOR_HV_WARNING)

/-- Severity, from `enum ErrorLevel` in `src/main/main.ino`. -/
inductive ErrorLevel where
  | WARNING
  | ERROR
deriving DecidableEq, Repr

export ErrorLevel (WARNING ERROR)

/-- One element of the error queue, from `struct Error` in
`src/main/main.ino` (same layout in `src/unnamed/part_000`). -/
structure ErrorRec where
  code : ErrorCode
  level : ErrorLevel
  expected : String
  actual : String
  asserted : Bool
  timestamp : Nat
deriving DecidableEq, Repr

/-- `#define MAX_QUEUE_SIZE 10` -/
def MAX_QUEUE_SIZE : Nat := 10

/-- `#define AUTO_RESET_TIMEOUT 600000` (milliseconds) -/
def AUTO_RESET_TIMEOUT : Nat := 600000

/-- Arduino `HIGH` -/
def HIGH : Nat := 1

/-- Arduino `LOW` -/
def LOW : Nat := 0

/-- Unsigned 32-bit subtraction `a - b`, as the AVR performs it on
`unsigned long` millisecond clocks. -/
def usub32 (a b : Nat) : Nat :=
  (a % 4294967296 + (4294967296 - b % 4294967296)) % 4294967296

/-- The zero-initialized global `Error` record: C++ value-initialization of
the global array gives enum value 0 (`VALVE_CONTENTION`, `WARNING`), empty
strings, `false`, timestamp 0. -/
def initialRecord : ErrorRec :=
  { code := VALVE_CONTENTION, level := WARNING, expected := "", actual := "",
    asserted := false, timestamp := 0 }

/-- Switch-state snapshot, from `struct SwitchStates`; fields hold
`digitalRead` results (0 or 1). -/
structure SwitchStates where
  pumpsPowerOn : Nat
  turboRotorOn : Nat
  turboVentOpen : Nat
  pressureGaugePowerOn : Nat
  turboGateValveOpen : Nat
  turboGateValveClosed : Nat
  argonGateValveClosed : Nat
  argonGateValveOpen : Nat
deriving DecidableEq, Repr

/-- Result of one 972b sensor command, from `struct CommandResult` of the
external driver as used by the repository. -/
structure CommandResult where
  outcome : Bool
  resultStr : String
deriving DecidableEq, Repr

namespace Main

/-- Global mutable state of the `src/main/main.ino` error subsystem:
`Error errorQueue[MAX_QUEUE_SIZE]`, `unsigned int currentErrorIndex`,
`bool errorQueueFull`, `unsigned long lastErrorDisplayTime`.
`currentErrorIndex` is only ever assigned values `< 10` (`(i + 1) % 10`
and in-range scan results), which the `Fin 10` type records. -/
@[ext]
structure Store where
  errorQueue : Fin 10 → ErrorRec
  currentErrorIndex : Fin 10
  errorQueueFull : Bool
  lastErrorDisplayTime : Nat

/-- Start-of-sketch state: zero-initialized globals. -/
def initialStore : Store :=
  { errorQueue := fun _ => initialRecord, currentErrorIndex := 0,
    errorQueueFull := false, lastErrorDisplayTime := 0 }

/-- `addErrorToQueue` of `src/main/main.ino` (lines 550-578).  The first
loop looks for a slot whose `code` matches AND which is `asserted`, and
updates it in place (its `code` field is left alone, but it already equals
`code`).  Otherwise the new record is written at `currentErrorIndex`,
which then advances round-robin; `errorQueueFull` latches true when the
index wraps to 0. -/
def addErrorToQueue (s : Store) (code : ErrorCode) (level : ErrorLevel)
    (expected actual : String) (currentTime : Nat) : Store :=
  match (List.finRange 10).find?
      (fun i => decide ((s.errorQueue i).code = code) && (s.errorQueue i).asserted) with
  | some i =>
      let upd : ErrorRec :=
        { s.errorQueue i with
          level := level,
          expected := expected,
          actual := actual,
          timestamp := currentTime,
          asserted := true }
      { s with errorQueue := Function.update s.errorQueue i upd }
  | none =>
      let fresh : ErrorRec :=
        { code := code,
          level := level,
          expected := expected,
          actual := actual,
          timestamp := currentTime,
          asserted := true }
      let q := Function.update s.errorQueue s.currentErrorIndex fresh
      let idx : Fin 10 := ⟨((s.currentErrorIndex : Nat) + 1) % 10, by omega⟩
      { s with
        errorQueue := q,
        currentErrorIndex := idx,
        errorQueueFull := if (idx : Nat) = 0 then true else s.errorQueueFull }

/-- `removeErrorFromQueue` of `src/main/main.ino` (lines 580-588): every
slot whose `code` matches is marked `asserted = false`. -/
def removeErrorFromQueue (s : Store) (code : ErrorCode) : Store :=
  let q : Fin 10 → ErrorRec := fun i =>
    if (s.errorQueue i).code = code then
      { s.errorQueue i with asserted := false }
    else s.errorQueue i
  { s with errorQueue := q }

/-- `cleanExpiredErrors` of `src/main/main.ino` (lines 590-599): every
slot with `currentTime - timestamp > AUTO_RESET_TIMEOUT` (unsigned
arithmetic) that is `asserted` is marked not asserted. -/
def cleanExpiredErrors (s : Store) (currentTime : Nat) : Store :=
  let q : Fin 10 → ErrorRec := fun i =>
    if usub32 currentTime (s.errorQueue i).timestamp > AUTO_RESET_TIMEOUT
        ∧ (s.errorQueue i).asserted then
      { s.errorQueue i with asserted := false }
    else s.errorQueue i
  { s with errorQueue := q }

/-- `isErrorPresent` of `src/main/main.ino` (lines 601-608): scan for a
slot with matching `code` that is `asserted`. -/
def isErrorPresent (s : Store) (code : ErrorCode) : Bool :=
  (List.finRange 10).any
    (fun i => decide ((s.errorQueue i).code = code) && (s.errorQueue i).asserted)

/-- `hasCriticalErrors` of `src/main/main.ino` (lines 610-621): scan for a
slot with `level == ERROR` that is `asserted`. -/
def hasCriticalErrors (s : Store) : Bool :=
  (List.finRange 10).any
    (fun i => decide ((s.errorQueue i).level = ERROR) && (s.errorQueue i).asserted)

/-- The `errorCount` computed at the top of `updateLCD`
(`src/main/main.ino` lines 191-196): number of asserted slots. -/
def errCountScan (s : Store) : Nat :=
  ((List.finRange 10).filter (fun i => (s.errorQueue i).asserted)).length

/-- Index arithmetic `(currentErrorIndex + i) % MAX_QUEUE_SIZE` from
`updateLCD`. -/
def cycIdx (c i : Fin 10) : Fin 10 := ⟨((c : Nat) + (i : Nat)) % 10, by omega⟩

/-- `updateLCD` of `src/main/main.ino` (lines 189-261), restricted to its
effect on the shared globals: when 2000 ms have elapsed since
`lastErrorDisplayTime` it refreshes that stamp and, if any slot is
asserted, moves `currentErrorIndex` to just past the first asserted slot
found cyclically from the current cursor.  The LCD printing itself has no
effect on the store. -/
def updateLCD (currentTime : Nat) (s : Store) : Store :=
  if usub32 currentTime s.lastErrorDisplayTime ≥ 2000 then
    let s1 := { s with lastErrorDisplayTime := currentTime }
    if errCountScan s1 > 0 then
      match (List.finRange 10).find?
          (fun i => (s1.errorQueue (cycIdx s1.currentErrorIndex i)).asserted) with
      | some i =>
          let idx := cycIdx s1.currentErrorIndex i
          { s1 with currentErrorIndex := ⟨((idx : Nat) + 1) % 10, by omega⟩ }
      | none => s1
    else s1
  else s

/-- `#define EXPECTED_AMBIENT_PRESSURE 1010.0` (millibar), modelled over ℚ. -/
def EXPECTED_AMBIENT_PRESSURE : ℚ := 1010

/-- `#define AMBIENT_PRESSURE_THRESHOLD 200.0` (millibar), modelled over ℚ. -/
def AMBIENT_PRESSURE_THRESHOLD : ℚ := 200

/-- Responses of the external 972b sensor collaborator consumed by one
`configurePressureSensor` pass: one `CommandResult` per command issued,
plus the value `sciToDouble` (a driver function, outside this repository)
would return for `pressureResult.resultStr` — `none` models NaN. -/
structure SensorEnv where
  pressureUnitResponse : CommandResult
  userTagResponse : CommandResult
  currentStatus : CommandResult
  relayConfig : CommandResult
  pressureResult : CommandResult
  pressureParsed : Option ℚ
deriving DecidableEq

/-- The safety-relay setpoint step shared by the "R" and "O" branches of
`configurePressureSensor` (`src/main/main.ino` lines 479-494 and 505-521):
`sensor.setupSetpoint(...)`, then assert or clear `SAFETY_RELAY_ERROR` on
its outcome. -/
def configureSafetyRelay (env : SensorEnv) (now : Nat) (s : Store) : Store :=
  if !env.relayConfig.outcome then
    addErrorToQueue s SAFETY_RELAY_ERROR ERROR "SafetyRelayOK" env.relayConfig.resultStr now
  else
    removeErrorFromQueue s SAFETY_RELAY_ERROR

/-- `verifyInitialPressure` of `src/main/main.ino` (lines 335-372).
`String(EXPECTED_AMBIENT_PRESSURE)` renders as `"1010.00"` (Arduino
`String(double)` prints two decimals).  The write to the display-only
global `currentPressure` is not modelled. -/
def verifyInitialPressure (env : SensorEnv) (now : Nat) (s : Store) : Store :=
  if env.pressureResult.outcome then
    let s1 := removeErrorFromQueue s PRESSURE_SENSE_ERROR
    match env.pressureParsed with
    | none =>
        addErrorToQueue s1 PRESSURE_NACK_ERROR ERROR "1010.00" env.pressureResult.resultStr now
    | some v =>
        if |v - EXPECTED_AMBIENT_PRESSURE| ≤ AMBIENT_PRESSURE_THRESHOLD then
          removeErrorFromQueue (removeErrorFromQueue s1 UNEXPECTED_PRESSURE_ERROR)
            PRESSURE_NACK_ERROR
        else
          addErrorToQueue (removeErrorFromQueue s1 PRESSURE_NACK_ERROR)
            UNEXPECTED_PRESSURE_ERROR WARNING ("1010.00" ++ "mbar")
            (env.pressureResult.resultStr ++ "mbar") now
  else
    addErrorToQueue s PRESSURE_SENSE_ERROR ERROR "972bOK" env.pressureResult.resultStr now

/-- Steps 1-2 of `configurePressureSensor` (`src/main/main.ino` lines
416-454): set pressure units and user tag, assert/clear the matching error
codes, refreshing the LCD after each. -/
def configUnitTag (env : SensorEnv) (now : Nat) (s : Store) : Store :=
  let s1 :=
    if !env.pressureUnitResponse.outcome then
      addErrorToQueue s PRESSURE_UNIT_ERROR ERROR "MBAR" env.pressureUnitResponse.resultStr now
    else
      removeErrorFromQueue s PRESSURE_UNIT_ERROR
  let s2 := updateLCD now s1
  let s3 :=
    if !env.userTagResponse.outcome then
      addErrorToQueue s2 USER_TAG_NACK_ERROR ERROR "EBEAM1" env.userTagResponse.resultStr now
    else
      removeErrorFromQueue s2 USER_TAG_NACK_ERROR
  updateLCD now s3

/-- `configurePressureSensor` of `src/main/main.ino` (lines 413-527).  The
returned `Bool` records whether the step-4 block — safety-relay setpoint
configuration followed by `verifyInitialPressure` — was invoked on this
pass. -/
def configurePressureSensor (env : SensorEnv) (now : Nat) (s : Store) : Store × Bool :=
  let s2 := configUnitTag env now s
  if !env.currentStatus.outcome then
    (addErrorToQueue s2 PRESSURE_NACK_ERROR ERROR "972bOK" env.currentStatus.resultStr now,
      false)
  else if env.currentStatus.resultStr = "C" then
    (addErrorToQueue s2 COLD_CATHODE_FAILURE ERROR "972bOK" "ColdCathodeFail" now, false)
  else if env.currentStatus.resultStr = "M" then
    (addErrorToQueue s2 MICROPIRANI_FAILURE ERROR "972bOK" "MicroPiraniFail" now, false)
  else if env.currentStatus.resultStr = "R" then
    let s3 := addErrorToQueue s2 PRESSURE_DOSE_WARNING WARNING "972bOK" "PressureDoseExc" now
    if isErrorPresent s3 COLD_CATHODE_FAILURE = false
        ∧ isErrorPresent s3 MICROPIRANI_FAILURE = false
        ∧ isErrorPresent s3 PRESSURE_UNIT_ERROR = false then
      (verifyInitialPressure env now (configureSafetyRelay env now s3), true)
    else
      (s3, false)
  else if env.currentStatus.resultStr = "O" ∧ isErrorPresent s2 PRESSURE_UNIT_ERROR = false then
    let s3 :=
      removeErrorFromQueue
        (removeErrorFromQueue (removeErrorFromQueue s2 COLD_CATHODE_FAILURE)
          MICROPIRANI_FAILURE)
        PRESSURE_DOSE_WARNING
    (verifyInitialPressure env now (configureSafetyRelay env now s3), true)
  else
    (s2, false)

/-- `isArgonValveContention` from `checkForValveContention`
(`src/main/main.ino` line 288). -/
def argonContention (states : SwitchStates) : Bool :=
  decide (states.argonGateValveClosed = HIGH) && decide (states.argonGateValveOpen = HIGH)

/-- `isTurboValveContention` from `checkForValveContention`
(`src/main/main.ino` line 289). -/
def turboContention (states : SwitchStates) : Bool :=
  decide (states.turboGateValveOpen = HIGH) && decide (states.turboGateValveClosed = HIGH)

/-- First half of `checkForValveContention` (`src/main/main.ino` lines
291-301): assert or clear the Argon-pair code. -/
def checkArgonPhase (states : SwitchStates) (now : Nat) (s : Store) : Store :=
  if argonContention states then
    addErrorToQueue s ARGON_GATE_VALVE_ERROR ERROR "ValveOK" "ValveContention" now
  else
    removeErrorFromQueue s ARGON_GATE_VALVE_ERROR

/-- Second half of `checkForValveContention` (`src/main/main.ino` lines
303-313): assert or clear the Turbo-pair code. -/
def checkTurboPhase (states : SwitchStates) (now : Nat) (s : Store) : Store :=
  if turboContention states then
    addErrorToQueue s TURBO_GATE_VALVE_ERROR ERROR "ValveOK" "ValveContention" now
  else
    removeErrorFromQueue s TURBO_GATE_VALVE_ERROR

/-- `checkForValveContention` of `src/main/main.ino` (lines 287-314): the
Argon pair is checked first, then the Turbo pair; each contention asserts
the pair code at `ERROR` with expected `"ValveOK"`, actual
`"ValveContention"`, and each non-contention clears that code. -/
def checkForValveContention (states : SwitchStates) (now : Nat) (s : Store) : Store :=
  checkTurboPhase states now (checkArgonPhase states now s)

/-- `checkTurboRotorOnWithoutPumpsPower` of `src/main/main.ino` (lines
316-329). -/
def checkTurboRotorOnWithoutPumpsPower (states : SwitchStates) (now : Nat) (s : Store) : Store :=
  if decide (states.turboRotorOn = HIGH) && decide (states.pumpsPowerOn = LOW) then
    addErrorToQueue s TURBO_ROTOR_ON_WARNING WARNING "RotorOFF" "RotorON" now
  else
    removeErrorFromQueue s TURBO_ROTOR_ON_WARNING

/-- Inputs consumed by one iteration of the `setup()` startup loop: the
switch snapshot read at the top, the sensor responses, and the sampled
clock. -/
structure PassEnv where
  states : SwitchStates
  sensor : SensorEnv
  now : Nat

/-- Body of the `do { ... }` startup loop of `setup()`
(`src/main/main.ino` lines 144-161): read switches, valve-contention
check, rotor check, sensor configuration, LCD refresh. -/
def startupPass (env : PassEnv) (s : Store) : Store :=
  let s1 := checkForValveContention env.states env.now s
  let s2 := checkTurboRotorOnWithoutPumpsPower env.states env.now s1
  let s3 := (configurePressureSensor env.sensor env.now s2).1
  updateLCD env.now s3

/-- Store after `n` startup passes consuming `env k, env (k+1), ...`. -/
def passTrace (env : Nat → PassEnv) (k : Nat) (s : Store) : Nat → Store
  | 0 => s
  | n + 1 => startupPass (env (k + n)) (passTrace env k s n)

/-- The `do { ... } while (hasCriticalErrors())` startup gate of `setup()`
(`src/main/main.ino` lines 144-161), given `fuel` as an observation bound:
`none` means the loop was still running after `fuel` iterations (the
source loop has no iteration bound of its own), `some s` means it exited
with final store `s`. -/
def setupGate (env : Nat → PassEnv) : Nat → Nat → Store → Option Store
  | 0, _, _ => none
  | fuel + 1, k, s =>
    let s1 := startupPass (env k) s
    if hasCriticalErrors s1 = true then setupGate env fuel (k + 1) s1 else some s1

end Main

namespace Part0

/-- Global mutable state of the `src/unnamed/part_000` error subsystem:
same array and cursor as `Main.Store`, plus the incrementally maintained
`unsigned int errorCount`.  `currentErrorIndex` is kept as a `Nat` here
because the source compares it against `-1` (i.e. `4294967295` after the
unsigned conversion), so the comparison must be representable. -/
structure Store where
  errorQueue : Fin 10 → ErrorRec
  errorCount : Nat
  currentErrorIndex : Nat
  errorQueueFull : Bool

/-- Zero-initialized globals of `src/unnamed/part_000`. -/
def initialStore : Store :=
  { errorQueue := fun _ => initialRecord, errorCount := 0,
    currentErrorIndex := 0, errorQueueFull := false }

/-- The `oldestIndex` scan inside `addErrorToQueue` of
`src/unnamed/part_000` (lines 640-650): locals
`int oldestIndex = -1; unsigned long oldestTime = ULONG_MAX;` updated while
walking the array; the walk breaks at the first non-asserted slot, so only
the prefix before that slot is examined.  The result feeds only the dead
`currentErrorIndex == -1` guard below. -/
def oldestAux (q : Fin 10 → ErrorRec) : List (Fin 10) → Int → Nat → Int
  | [], oldestIndex, _ => oldestIndex
  | i :: rest, oldestIndex, oldestTime =>
    if !(q i).asserted then oldestIndex
    else if (q i).timestamp < oldestTime then oldestAux q rest ((i : Nat) : Int) (q i).timestamp
    else oldestAux q rest oldestIndex oldestTime

/-- `addErrorToQueue` of `src/unnamed/part_000` (lines 613-668).  The
update loop matches on `code` alone (asserted or not) and bumps
`errorCount` when a previously non-asserted record is re-asserted.  The
allocation loop takes the first non-asserted slot, else leaves
`currentErrorIndex` at its previous value; the `oldest` overwrite is
guarded by `currentErrorIndex == -1`, which compares an `unsigned int`
(always `< 10` here) against `4294967295` and therefore never fires — the
comparison is modelled literally. -/
def addErrorToQueue (s : Store) (code : ErrorCode) (level : ErrorLevel)
    (expected actual : String) (currentTime : Nat) : Store :=
  match (List.finRange 10).find? (fun i => decide ((s.errorQueue i).code = code)) with
  | some i =>
      let upd : ErrorRec :=
        { s.errorQueue i with
          level := level,
          expected := expected,
          actual := actual,
          timestamp := currentTime,
          asserted := true }
      { s with
        errorQueue := Function.update s.errorQueue i upd,
        errorCount := if (s.errorQueue i).asserted then s.errorCount else s.errorCount + 1 }
  | none =>
      let idx1 : Nat :=
        match (List.finRange 10).find? (fun i => !(s.errorQueue i).asserted) with
        | some i => (i : Nat)
        | none => s.currentErrorIndex
      let oldestIndex : Int := oldestAux s.errorQueue (List.finRange 10) (-1) 4294967295
      let idx2 : Nat :=
        if idx1 = 4294967295 ∧ oldestIndex ≠ -1 then oldestIndex.toNat else idx1
      let fresh : ErrorRec :=
        { code := code,
          level := level,
          expected := expected,
          actual := actual,
          timestamp := currentTime,
          asserted := true }
      let q : Fin 10 → ErrorRec :=
        if h : idx2 < 10 then Function.update s.errorQueue ⟨idx2, h⟩ fresh else s.errorQueue
      { errorQueue := q,
        errorCount := s.errorCount + 1,
        currentErrorIndex := (idx2 + 1) % 10,
        errorQueueFull := if (idx2 + 1) % 10 = 0 then true else s.errorQueueFull }

/-- `removeErrorFromQueue` of `src/unnamed/part_000` (lines 670-679): for
every slot whose `code` matches, mark it not asserted and decrement
`errorCount` (with underflow protection) — the decrement happens whether
or not the slot was still asserted. -/
def removeErrorFromQueue (s : Store) (code : ErrorCode) : Store :=
  (List.finRange 10).foldl
    (fun st i =>
      if (st.errorQueue i).code = code then
        let upd : ErrorRec := { st.errorQueue i with asserted := false }
        { st with
          errorQueue := Function.update st.errorQueue i upd,
          errorCount := if st.errorCount > 0 then st.errorCount - 1 else st.errorCount }
      else st) s

/-- `cleanExpiredErrors` of `src/unnamed/part_000` (lines 681-691): every
asserted slot older than `AUTO_RESET_TIMEOUT` is de-asserted and
`errorCount` is decremented (with underflow protection). -/
def cleanExpiredErrors (s : Store) (currentTime : Nat) : Store :=
  (List.finRange 10).foldl
    (fun st i =>
      if usub32 currentTime (st.errorQueue i).timestamp > AUTO_RESET_TIMEOUT
          ∧ (st.errorQueue i).asserted then
        let upd : ErrorRec := { st.errorQueue i with asserted := false }
        { st with
          errorQueue := Function.update st.errorQueue i upd,
          errorCount := if st.errorCount > 0 then st.errorCount - 1 else st.errorCount }
      else st) s

/-- `isErrorPresent` of `src/unnamed/part_000` (lines 693-700). -/
def isErrorPresent (s : Store) (code : ErrorCode) : Bool :=
  (List.finRange 10).any
    (fun i => decide ((s.errorQueue i).code = code) && (s.errorQueue i).asserted)

/-- Number of asserted slots in the array — the quantity the claimed
`errorCount` invariant compares the counter against. -/
def assertedCount (s : Store) : Nat :=
  ((List.finRange 10).filter (fun i => (s.errorQueue i).asserted)).length

end Part0

namespace Part1

/-- `cleanExpiredErrors` of `src/unnamed/part_001` (lines 622-640): the
list-backed queue is swept front to back, each element popped and pushed
back only when it is still within the timeout
(`currentTime - timestamp < AUTO_RESET_TIMEOUT`, unsigned) or still
asserted; otherwise it is deleted.  One sweep therefore keeps, in order,
exactly the elements satisfying that condition. -/
def cleanExpiredErrors (currentTime : Nat) : List ErrorRec → List ErrorRec
  | [] => []
  | e :: rest =>
    if usub32 currentTime e.timestamp < AUTO_RESET_TIMEOUT ∨ e.asserted then
      e :: cleanExpiredErrors currentTime rest
    else cleanExpiredErrors currentTime rest

/-- `hasCriticalErrors` of `src/unnamed/part_001` (lines 655-667): scan
of the queue for an asserted `ERROR`-level element. -/
def hasCriticalErrors (q : List ErrorRec) : Bool :=
  q.any (fun e => decide (e.level = ERROR) && e.asserted)

end Part1

/-- Predicate for claim C2: no two distinct slots are simultaneously
asserted for the same code. -/
def uniqAsserted (s : Main.Store) : Prop :=
  ∀ i j : Fin 10, (s.errorQueue i).asserted = true → (s.errorQueue j).asserted = true →
    (s.errorQueue i).code = (s.errorQueue j).code → i = j

/-- Store states reachable from power-on through the `src/main/main.ino`
error-store operations (any interleaving of assert, clear, expiry sweep
and display refresh, with arbitrary arguments and clock values). -/
inductive Reachable : Main.Store → Prop
  | init : Reachable Main.initialStore
  | add (s : Main.Store) (c : ErrorCode) (l : ErrorLevel) (e a : String) (t : Nat) :
      Reachable s → Reachable (Main.addErrorToQueue s c l e a t)
  | remove (s : Main.Store) (c : ErrorCode) :
      Reachable s → Reachable (Main.removeErrorFromQueue s c)
  | clean (s : Main.Store) (t : Nat) :
      Reachable s → Reachable (Main.cleanExpiredErrors s t)
  | lcd (s : Main.Store) (t : Nat) :
      Reachable s → Reachable (Main.updateLCD t s)

namespace Ex

/-- Fold a list of (code, time) asserts over a main.ino store, every one
at `ERROR` level with fixed diagnostic strings — the level and strings are
irrelevant to the capacity/dedup scenarios this is used for. -/
def assertSeq (s : Main.Store) (ops : List (ErrorCode × Nat)) : Main.Store :=
  ops.foldl (fun st p => Main.addErrorToQueue st p.1 ERROR "E" "A" p.2) s

/-- C1 counterexample store: one assert at time 0. -/
def c1s : Main.Store :=
  Main.addErrorToQueue Main.initialStore ARGON_GATE_VALVE_ERROR ERROR "ValveOK"
    "ValveContention" 0

/-- C1 witness record: an asserted entry far older than the timeout. -/
def c1e : ErrorRec :=
  { code := ARGON_GATE_VALVE_ERROR, level := ERROR, expected := "ValveOK",
    actual := "ValveContention", asserted := true, timestamp := 0 }

/-- C2 counterexample trace: assert, clear, re-assert the same code. -/
def c2s1 : Main.Store :=
  Main.addErrorToQueue Main.initialStore COLD_CATHODE_FAILURE ERROR "972bOK"
    "ColdCathodeFail" 100

/-- C2 counterexample trace, after the clear. -/
def c2s2 : Main.Store := Main.removeErrorFromQueue c2s1 COLD_CATHODE_FAILURE

/-- C2 counterexample trace, after the re-assert. -/
def c2s3 : Main.Store :=
  Main.addErrorToQueue c2s2 COLD_CATHODE_FAILURE ERROR "972bOK" "ColdCathodeFail" 200

/-- C3 witness store: a single asserted WARNING-level entry. -/
def c3w : Main.Store :=
  Main.addErrorToQueue Main.initialStore TURBO_ROTOR_ON_WARNING WARNING "RotorOFF"
    "RotorON" 3

/-- Ten distinct codes filling the ten slots at times 1..10. -/
def c4fill : List (ErrorCode × Nat) :=
  [(COLD_CATHODE_FAILURE, 1), (MICROPIRANI_FAILURE, 2), (UNEXPECTED_PRESSURE_ERROR, 3),
   (SAFETY_RELAY_ERROR, 4), (ARGON_GATE_VALVE_ERROR, 5), (TURBO_GATE_VALVE_ERROR, 6),
   (VENT_VALVE_OPEN_ERROR, 7), (PRESSURE_NACK_ERROR, 8), (PRESSURE_SENSE_ERROR, 9),
   (USER_TAG_NACK_ERROR, 10)]

/-- C4 counterexample: fill the store, then re-assert the first code at
time 11, making it the NEWEST entry while leaving it in slot 0. -/
def c4cePre : Main.Store := assertSeq Main.initialStore (c4fill ++ [(COLD_CATHODE_FAILURE, 11)])

/-- C4 counterexample: a brand-new 11th code asserted with every slot
taken. -/
def c4ce : Main.Store := Main.addErrorToQueue c4cePre RELAY_NACK_ERROR ERROR "E" "A" 12

/-- C4 amended scenario: store after the first N = 10 distinct asserts. -/
def c4scnPre : Main.Store := assertSeq Main.initialStore c4fill

/-- C4 amended scenario: the (N+1)-st distinct code asserted at time 11. -/
def c4scn : Main.Store := Main.addErrorToQueue c4scnPre RELAY_NACK_ERROR ERROR "E" "A" 11

/-- The ten codes expected to remain asserted in the C4 scenario. -/
def c4survivors : List ErrorCode :=
  [MICROPIRANI_FAILURE, UNEXPECTED_PRESSURE_ERROR, SAFETY_RELAY_ERROR,
   ARGON_GATE_VALVE_ERROR, TURBO_GATE_VALVE_ERROR, VENT_VALVE_OPEN_ERROR,
   PRESSURE_NACK_ERROR, PRESSURE_SENSE_ERROR, USER_TAG_NACK_ERROR, RELAY_NACK_ERROR]

/-- C5 failing trace on part_000: two asserts, then two clears of the
same code. -/
def c5s1 : Part0.Store :=
  Part0.addErrorToQueue Part0.initialStore ARGON_GATE_VALVE_ERROR ERROR "ValveOK"
    "ValveContention" 100

/-- C5 failing trace, second assert. -/
def c5s2 : Part0.Store :=
  Part0.addErrorToQueue c5s1 TURBO_GATE_VALVE_ERROR ERROR "ValveOK" "ValveContention" 200

/-- C5 failing trace, first clear. -/
def c5s3 : Part0.Store := Part0.removeErrorFromQueue c5s2 TURBO_GATE_VALVE_ERROR

/-- C5 failing trace, second (claimed no-op) clear of the same code. -/
def c5s4 : Part0.Store := Part0.removeErrorFromQueue c5s3 TURBO_GATE_VALVE_ERROR

/-- C6 failing trace on part_000: assert two codes, clear the first twice. -/
def c6s1 : Part0.Store :=
  Part0.addErrorToQueue Part0.initialStore COLD_CATHODE_FAILURE ERROR "972bOK"
    "ColdCathodeFail" 100

/-- C6 failing trace, second assert. -/
def c6s2 : Part0.Store :=
  Part0.addErrorToQueue c6s1 MICROPIRANI_FAILURE ERROR "972bOK" "MicroPiraniFail" 200

/-- C6 failing trace, first clear. -/
def c6s3 : Part0.Store := Part0.removeErrorFromQueue c6s2 COLD_CATHODE_FAILURE

/-- C6 failing trace, second clear of the already-inactive code. -/
def c6s4 : Part0.Store := Part0.removeErrorFromQueue c6s3 COLD_CATHODE_FAILURE

/-- C8 counterexample prefix: Argon contention recorded in slot 0, nine
further distinct codes wrapping the round-robin cursor back to slot 0. -/
def c8pre : Main.Store :=
  assertSeq Main.initialStore
    [(ARGON_GATE_VALVE_ERROR, 1), (COLD_CATHODE_FAILURE, 2), (MICROPIRANI_FAILURE, 3),
     (UNEXPECTED_PRESSURE_ERROR, 4), (SAFETY_RELAY_ERROR, 5), (VENT_VALVE_OPEN_ERROR, 6),
     (PRESSURE_NACK_ERROR, 7), (PRESSURE_SENSE_ERROR, 8), (PRESSURE_UNIT_ERROR, 9),
     (USER_TAG_NACK_ERROR, 10)]

/-- C8 counterexample snapshot: both valve pairs in contention. -/
def c8st : SwitchStates :=
  { pumpsPowerOn := 0, turboRotorOn := 0, turboVentOpen := 0, pressureGaugePowerOn := 0,
    turboGateValveOpen := 1, turboGateValveClosed := 1, argonGateValveClosed := 1,
    argonGateValveOpen := 1 }

/-- C8 witness snapshot: Argon pair in contention, Turbo pair not. -/
def c8wst : SwitchStates :=
  { pumpsPowerOn := 0, turboRotorOn := 0, turboVentOpen := 0, pressureGaugePowerOn := 0,
    turboGateValveOpen := 0, turboGateValveClosed := 1, argonGateValveClosed := 1,
    argonGateValveOpen := 1 }

/-- C9 counterexample store: cold-cathode failure already asserted. -/
def c9sCC : Main.Store :=
  Main.addErrorToQueue Main.initialStore COLD_CATHODE_FAILURE ERROR "972bOK"
    "ColdCathodeFail" 5

/-- C9 counterexample environment: every command succeeds and the status
query returns "O". -/
def c9envO : Main.SensorEnv :=
  { pressureUnitResponse := { outcome := true, resultStr := "MBAR" },
    userTagResponse := { outcome := true, resultStr := "" },
    currentStatus := { outcome := true, resultStr := "O" },
    relayConfig := { outcome := true, resultStr := "" },
    pressureResult := { outcome := true, resultStr := "1.01E+3" },
    pressureParsed := some 1010 }

/-- C9 witness environment: status query returns "R", everything else
succeeds. -/
def c9envR : Main.SensorEnv :=
  { pressureUnitResponse := { outcome := true, resultStr := "MBAR" },
    userTagResponse := { outcome := true, resultStr := "" },
    currentStatus := { outcome := true, resultStr := "R" },
    relayConfig := { outcome := true, resultStr := "" },
    pressureResult := { outcome := true, resultStr := "1.01E+3" },
    pressureParsed := some 1010 }

/-- C10 example store: an ERROR-level entry asserted at time 0. -/
def c10s : Main.Store :=
  Main.addErrorToQueue Main.initialStore COLD_CATHODE_FAILURE ERROR "972bOK"
    "ColdCathodeFail" 0

/-- Switch snapshot with every pin LOW. -/
def quietSt : SwitchStates :=
  { pumpsPowerOn := 0, turboRotorOn := 0, turboVentOpen := 0, pressureGaugePowerOn := 0,
    turboGateValveOpen := 0, turboGateValveClosed := 0, argonGateValveClosed := 0,
    argonGateValveOpen := 0 }

/-- C7 witness pass input on which every issued command succeeds and the
status query returns a string outside the handled domain, so the pass
only clears codes: the startup pass leaves no critical error and the gate
exits. -/
def goodPass : Main.PassEnv :=
  { states := quietSt,
    sensor :=
      { pressureUnitResponse := { outcome := true, resultStr := "MBAR" },
        userTagResponse := { outcome := true, resultStr := "" },
        currentStatus := { outcome := true, resultStr := "X" },
        relayConfig := { outcome := true, resultStr := "" },
        pressureResult := { outcome := true, resultStr := "" },
        pressureParsed := none },
    now := 0 }

/-- C7 witness environment stream: every pass succeeds. -/
def goodEnvFun : Nat → Main.PassEnv := fun _ => goodPass

/-- C7 witness exit store: the store after the single good pass. -/
def goodExit : Main.Store := Main.startupPass (goodEnvFun 0) Main.initialStore

/-- C7 witness pass input on which the pressure-unit configuration keeps
failing, so every pass re-asserts the ERROR-level unit error and the gate
can never exit. -/
def badPass : Main.PassEnv :=
  { states := quietSt,
    sensor :=
      { pressureUnitResponse := { outcome := false, resultStr := "NAK" },
        userTagResponse := { outcome := true, resultStr := "" },
        currentStatus := { outcome := true, resultStr := "O" },
        relayConfig := { outcome := true, resultStr := "" },
        pressureResult := { outcome := true, resultStr := "" },
        pressureParsed := none },
    now := 0 }

/-- C7 witness environment stream: the unit configuration fails forever. -/
def badEnvFun : Nat → Main.PassEnv := fun _ => badPass

end Ex

namespace Main

theorem isErrorPresent_iff (s : Store) (c : ErrorCode) :
    isErrorPresent s c = true ↔
      ∃ i : Fin 10, (s.errorQueue i).code = c ∧ (s.errorQueue i).asserted = true := by
  simp [isErrorPresent, List.any_eq_true, List.mem_finRange]

theorem hasCriticalErrors_iff (s : Store) :
    hasCriticalErrors s = true ↔
      ∃ i : Fin 10, (s.errorQueue i).level = ERROR ∧ (s.errorQueue i).asserted = true := by
  simp [hasCriticalErrors, List.any_eq_true, List.mem_finRange]

theorem isErrorPresent_of_slot (s : Store) (c : ErrorCode) (i : Fin 10)
    (hc : (s.errorQueue i).code = c) (ha : (s.errorQueue i).asserted = true) :
    isErrorPresent s c = true :=
  (isErrorPresent_iff s c).2 ⟨i, hc, ha⟩

theorem hasCriticalErrors_of_slot (s : Store) (i : Fin 10)
    (hl : (s.errorQueue i).level = ERROR) (ha : (s.errorQueue i).asserted = true) :
    hasCriticalErrors s = true :=
  (hasCriticalErrors_iff s).2 ⟨i, hl, ha⟩

theorem addErrorToQueue_slot (s : Store) (c : ErrorCode) (l : ErrorLevel)
    (e a : String) (t : Nat) :
    ∃ i : Fin 10, (addErrorToQueue s c l e a t).errorQueue i =
      { code := c, level := l, expected := e, actual := a, asserted := true, timestamp := t } := by
  cases hf : (List.finRange 10).find?
      (fun i => decide ((s.errorQueue i).code = c) && (s.errorQueue i).asserted) with
  | none =>
      refine ⟨s.currentErrorIndex, ?_⟩
      simp [addErrorToQueue, hf]
  | some i =>
      have hp := List.find?_some hf
      simp only [Bool.and_eq_true, decide_eq_true_eq] at hp
      refine ⟨i, ?_⟩
      simp [addErrorToQueue, hf, hp.1]

theorem isErrorPresent_addErrorToQueue_self (s : Store) (c : ErrorCode) (l : ErrorLevel)
    (e a : String) (t : Nat) :
    isErrorPresent (addErrorToQueue s c l e a t) c = true := by
  obtain ⟨i, hi⟩ := addErrorToQueue_slot s c l e a t
  exact isErrorPresent_of_slot _ _ i (by rw [hi]) (by rw [hi])

theorem removeErrorFromQueue_errorQueue (s : Store) (c : ErrorCode) (i : Fin 10) :
    (removeErrorFromQueue s c).errorQueue i =
      if (s.errorQueue i).code = c then { s.errorQueue i with asserted := false }
      else s.errorQueue i := rfl

theorem removeErrorFromQueue_errorQueue_ne (s : Store) (c : ErrorCode) (i : Fin 10)
    (h : (s.errorQueue i).code ≠ c) :
    (removeErrorFromQueue s c).errorQueue i = s.errorQueue i := by
  rw [removeErrorFromQueue_errorQueue, if_neg h]

theorem isErrorPresent_removeErrorFromQueue_self (s : Store) (c : ErrorCode) :
    isErrorPresent (removeErrorFromQueue s c) c = false := by
  rw [Bool.eq_false_iff]
  intro h
  obtain ⟨i, hc, ha⟩ := (isErrorPresent_iff _ _).1 h
  rw [removeErrorFromQueue_errorQueue] at hc ha
  by_cases hcode : (s.errorQueue i).code = c
  · rw [if_pos hcode] at ha
    simp at ha
  · rw [if_neg hcode] at hc
    exact hcode hc

theorem isErrorPresent_removeErrorFromQueue_ne (s : Store) (c c2 : ErrorCode) (h : c ≠ c2) :
    isErrorPresent (removeErrorFromQueue s c2) c = isErrorPresent s c := by
  rw [Bool.eq_iff_iff, isErrorPresent_iff, isErrorPresent_iff]
  constructor
  · rintro ⟨i, hc, ha⟩
    rw [removeErrorFromQueue_errorQueue] at hc ha
    by_cases hcode : (s.errorQueue i).code = c2
    · rw [if_pos hcode] at ha
      simp at ha
    · rw [if_neg hcode] at hc ha
      exact ⟨i, hc, ha⟩
  · rintro ⟨i, hc, ha⟩
    have hcode : ¬ (s.errorQueue i).code = c2 := fun hk => h (hc.symm.trans hk)
    refine ⟨i, ?_, ?_⟩ <;> rw [removeErrorFromQueue_errorQueue, if_neg hcode]
    · exact hc
    · exact ha

theorem cleanExpiredErrors_errorQueue (s : Store) (t : Nat) (i : Fin 10) :
    (cleanExpiredErrors s t).errorQueue i =
      if usub32 t (s.errorQueue i).timestamp > AUTO_RESET_TIMEOUT ∧ (s.errorQueue i).asserted then
        { s.errorQueue i with asserted := false }
      else s.errorQueue i := rfl

theorem remove_slot_code (s : Store) (c : ErrorCode) (i : Fin 10) :
    ((removeErrorFromQueue s c).errorQueue i).code = (s.errorQueue i).code := by
  rw [removeErrorFromQueue_errorQueue]
  split <;> rfl

theorem remove_slot_asserted (s : Store) (c : ErrorCode) (i : Fin 10) :
    ((removeErrorFromQueue s c).errorQueue i).asserted = true →
    (s.errorQueue i).asserted = true := by
  rw [removeErrorFromQueue_errorQueue]
  split
  · intro h
    simp at h
  · exact id

theorem clean_slot_code (s : Store) (t : Nat) (i : Fin 10) :
    ((cleanExpiredErrors s t).errorQueue i).code = (s.errorQueue i).code := by
  rw [cleanExpiredErrors_errorQueue]
  split <;> rfl

theorem clean_slot_asserted (s : Store) (t : Nat) (i : Fin 10) :
    ((cleanExpiredErrors s t).errorQueue i).asserted = true →
    (s.errorQueue i).asserted = true := by
  rw [cleanExpiredErrors_errorQueue]
  split
  · intro h
    simp at h
  · exact id

theorem addErrorToQueue_of_found (s : Store) (c : ErrorCode) (l : ErrorLevel)
    (e a : String) (t : Nat) (i0 : Fin 10)
    (hf : (List.finRange 10).find?
      (fun k => decide ((s.errorQueue k).code = c) && (s.errorQueue k).asserted) = some i0) :
    (addErrorToQueue s c l e a t).errorQueue = Function.update s.errorQueue i0
      { s.errorQueue i0 with
        level := l, expected := e, actual := a, timestamp := t, asserted := true } := by
  simp [addErrorToQueue, hf]

theorem addErrorToQueue_of_not_found (s : Store) (c : ErrorCode) (l : ErrorLevel)
    (e a : String) (t : Nat)
    (hf : (List.finRange 10).find?
      (fun k => decide ((s.errorQueue k).code = c) && (s.errorQueue k).asserted) = none) :
    (addErrorToQueue s c l e a t).errorQueue =
      Function.update s.errorQueue s.currentErrorIndex
        { code := c, level := l, expected := e, actual := a, asserted := true,
          timestamp := t } := by
  simp [addErrorToQueue, hf]

theorem updateLCD_errorQueue (t : Nat) (s : Store) :
    (updateLCD t s).errorQueue = s.errorQueue := by
  unfold updateLCD
  split
  · dsimp only
    split
    · split <;> rfl
    · rfl
  · rfl

theorem isErrorPresent_updateLCD (t : Nat) (s : Store) (c : ErrorCode) :
    isErrorPresent (updateLCD t s) c = isErrorPresent s c := by
  unfold isErrorPresent
  rw [updateLCD_errorQueue]

theorem hasCriticalErrors_updateLCD (t : Nat) (s : Store) :
    hasCriticalErrors (updateLCD t s) = hasCriticalErrors s := by
  unfold hasCriticalErrors
  rw [updateLCD_errorQueue]

end Main

/-- C1 counterexample: in `src/main/main.ino`, `cleanExpiredErrors` at
time 700000 de-asserts an entry that is STILL asserted (asserted at time
0, timeout 600000) — the sweep removes active entries, exactly what the
claim says never happens.  (The already-inactive entries are the ones it
leaves in place.) -/
theorem C1_counterexample_main_clean_deasserts_active :
    Main.isErrorPresent Ex.c1s ARGON_GATE_VALVE_ERROR = true
      ∧ (Ex.c1s.errorQueue 0).asserted = true
      ∧ ((Main.cleanExpiredErrors Ex.c1s 700000).errorQueue 0).asserted = false
      ∧ Main.isErrorPresent (Main.cleanExpiredErrors Ex.c1s 700000)
          ARGON_GATE_VALVE_ERROR = false := by
  decide

/-- C1 amended: the claim as stated holds of the queue-backed draft
(`src/unnamed/part_001`): its expiry sweep never removes an element with
asserted==true, regardless of elapsed time; the array-backed sweeps
(`main.ino`, `part_000`) instead de-assert asserted entries older than
the timeout. -/
theorem C1_part1_expiry_preserves_asserted (now : Nat) (q : List ErrorRec) (e : ErrorRec)
    (hmem : e ∈ q) (ha : e.asserted = true) :
    e ∈ Part1.cleanExpiredErrors now q := by
  induction q with
  | nil => cases hmem
  | cons x rest ih =>
      rcases List.mem_cons.1 hmem with rfl | hm
      · unfold Part1.cleanExpiredErrors
        rw [if_pos (Or.inr ha)]
        exact List.mem_cons_self _ _
      · unfold Part1.cleanExpiredErrors
        split
        · exact List.mem_cons_of_mem _ (ih hm)
        · exact ih hm

/-- C1 witness: a stale (timestamp 0) but asserted record survives a
part_001 sweep at time 700000. -/
theorem C1_part1_expiry_preserves_asserted_witness :
    Ex.c1e ∈ Part1.cleanExpiredErrors 700000 [Ex.c1e] :=
  C1_part1_expiry_preserves_asserted 700000 [Ex.c1e] Ex.c1e (List.mem_singleton.2 rfl) rfl

/-- C2 counterexample: in `src/main/main.ino`, after assert - clear -
assert of the same code, slots 0 and 1 BOTH hold entries for
`COLD_CATHODE_FAILURE`: the re-assert did not update the existing
(inactive) entry in place — slot 0 still carries the old timestamp — but
created a second entry for the same code in slot 1. -/
theorem C2_counterexample_duplicate_entries_same_code :
    (Ex.c2s3.errorQueue 0).code = COLD_CATHODE_FAILURE
      ∧ (Ex.c2s3.errorQueue 1).code = COLD_CATHODE_FAILURE
      ∧ (Ex.c2s3.errorQueue 0).asserted = false
      ∧ (Ex.c2s3.errorQueue 1).asserted = true
      ∧ (Ex.c2s3.errorQueue 0).timestamp = 100
      ∧ (Ex.c2s3.errorQueue 1).timestamp = 200 := by
  decide

/-- C2 amended: along every operation sequence of the main.ino store, at
most one ASSERTED entry per code exists at any time (an assert for a code
with a currently-asserted entry updates it in place); an assert for a code
whose entries are all inactive allocates a new slot and may leave an
additional inactive duplicate behind. -/
theorem C2_at_most_one_asserted_entry_per_code (s : Main.Store) (h : Reachable s) :
    uniqAsserted s := by
  induction h with
  | init =>
      intro i j hi _ _
      simp [Main.initialStore, initialRecord] at hi
  | add s c l e a t hs ih =>
      intro i j hi hj hc
      cases hf : (List.finRange 10).find?
          (fun k => decide ((s.errorQueue k).code = c) && (s.errorQueue k).asserted) with
      | some i0 =>
          have hp := List.find?_some hf
          simp only [Bool.and_eq_true, decide_eq_true_eq] at hp
          rw [Main.addErrorToQueue_of_found s c l e a t i0 hf] at hi hj hc
          by_cases hii : i = i0 <;> by_cases hjj : j = i0
          · rw [hii, hjj]
          · subst hii
            rw [Function.update_same] at hc
            rw [Function.update_noteq hjj] at hc hj
            exact ih i j hp.2 hj (by simpa using hc)
          · subst hjj
            rw [Function.update_same] at hc
            rw [Function.update_noteq hii] at hc hi
            exact ih i j hi hp.2 (by simpa using hc)
          · rw [Function.update_noteq hii] at hi hc
            rw [Function.update_noteq hjj] at hj hc
            exact ih i j hi hj hc
      | none =>
          have hno := List.find?_eq_none.1 hf
          rw [Main.addErrorToQueue_of_not_found s c l e a t hf] at hi hj hc
          by_cases hii : i = s.currentErrorIndex <;> by_cases hjj : j = s.currentErrorIndex
          · rw [hii, hjj]
          · subst hii
            rw [Function.update_same] at hc
            rw [Function.update_noteq hjj] at hc hj
            exact absurd
              (by simp [hc.symm, hj] :
                (decide ((s.errorQueue j).code = c) && (s.errorQueue j).asserted) = true)
              (hno j (List.mem_finRange j))
          · subst hjj
            rw [Function.update_same] at hc
            rw [Function.update_noteq hii] at hc hi
            exact absurd
              (by simp [hc, hi] :
                (decide ((s.errorQueue i).code = c) && (s.errorQueue i).asserted) = true)
              (hno i (List.mem_finRange i))
          · rw [Function.update_noteq hii] at hi hc
            rw [Function.update_noteq hjj] at hj hc
            exact ih i j hi hj hc
  | remove s c hs ih =>
      intro i j hi hj hc
      rw [Main.remove_slot_code, Main.remove_slot_code] at hc
      exact ih i j (Main.remove_slot_asserted s c i hi) (Main.remove_slot_asserted s c j hj) hc
  | clean s t hs ih =>
      intro i j hi hj hc
      rw [Main.clean_slot_code, Main.clean_slot_code] at hc
      exact ih i j (Main.clean_slot_asserted s t i hi) (Main.clean_slot_asserted s t j hj) hc
  | lcd s t hs ih =>
      intro i j hi hj hc
      rw [Main.updateLCD_errorQueue] at hi hj hc
      exact ih i j hi hj hc

/-- C2 witness: the dedup-of-asserted-entries invariant at a concrete
reachable store (one assert from power-on). -/
theorem C2_at_most_one_asserted_entry_per_code_witness : uniqAsserted Ex.c2s1 :=
  C2_at_most_one_asserted_entry_per_code Ex.c2s1
    (Reachable.add Main.initialStore COLD_CATHODE_FAILURE ERROR "972bOK"
      "ColdCathodeFail" 100 Reachable.init)

/-- C3: `hasCriticalErrors` of `src/main/main.ino` returns true exactly
when some entry has level==ERROR and asserted==true; in particular a
store whose asserted entries are all WARNING-level returns false. -/
theorem C3_hasCriticalErrors_iff_asserted_error (s : Main.Store) :
    (Main.hasCriticalErrors s = true ↔
      ∃ i : Fin 10, (s.errorQueue i).level = ERROR ∧ (s.errorQueue i).asserted = true)
    ∧ ((∀ i : Fin 10, (s.errorQueue i).asserted = true → (s.errorQueue i).level = WARNING) →
        Main.hasCriticalErrors s = false) := by
  constructor
  · exact Main.hasCriticalErrors_iff s
  · intro hw
    rw [Bool.eq_false_iff]
    intro h
    obtain ⟨i, hl, ha⟩ := (Main.hasCriticalErrors_iff s).1 h
    rw [hw i ha] at hl
    exact ErrorLevel.noConfusion hl

/-- C3 witness: a store holding one asserted WARNING-level entry is not
critical. -/
theorem C3_hasCriticalErrors_iff_asserted_error_witness :
    Main.hasCriticalErrors Ex.c3w = false :=
  (C3_hasCriticalErrors_iff_asserted_error Ex.c3w).2 (by decide)

/-- C6: in `src/unnamed/part_000` the maintained `errorCount` — the value
`updateLCD` prints as "Err:N" — diverges from the number of asserted
entries: after assert(CC), assert(MP), clear(CC), clear(CC) the counter
reads 0 while one entry (MICROPIRANI_FAILURE) is still asserted, because
`removeErrorFromQueue` decrements for a matching entry that is already
inactive.  (In `src/main/main.ino` the displayed count is recomputed by
scanning asserted entries, which satisfies the claim by construction.) -/
theorem C6_part0_errorCount_diverges_from_asserted :
    Ex.c6s4.errorCount = 0
      ∧ Part0.assertedCount Ex.c6s4 = 1
      ∧ Part0.isErrorPresent Ex.c6s4 MICROPIRANI_FAILURE = true := by
  decide

/-- C10: one sweep of main.ino `cleanExpiredErrors` leaves a slot
asserted exactly when it was asserted and its age is within
`AUTO_RESET_TIMEOUT`, independent of severity (levels are untouched and
never consulted); concretely, a store holding an ERROR-level entry
asserted at time 0 is critical, and after a sweep at time 600001 it is
not, although `removeErrorFromQueue` was never called for it. -/
theorem C10_expiry_deasserts_stale_any_level :
    (∀ (s : Main.Store) (now : Nat) (i : Fin 10),
        ((Main.cleanExpiredErrors s now).errorQueue i).asserted
            = ((s.errorQueue i).asserted &&
                !(decide (usub32 now (s.errorQueue i).timestamp > AUTO_RESET_TIMEOUT)))
          ∧ ((Main.cleanExpiredErrors s now).errorQueue i).level = (s.errorQueue i).level)
    ∧ (Main.hasCriticalErrors Ex.c10s = true
        ∧ Main.hasCriticalErrors (Main.cleanExpiredErrors Ex.c10s 600001) = false) := by
  constructor
  · intro s now i
    constructor
    · rw [Main.cleanExpiredErrors_errorQueue]
      split
      · rename_i hcond
        simp [hcond.1, hcond.2]
      · rename_i hcond
        by_cases ha : (s.errorQueue i).asserted = true
        · have hc : ¬ usub32 now (s.errorQueue i).timestamp > AUTO_RESET_TIMEOUT :=
            fun hgt => hcond ⟨hgt, ha⟩
          simp [ha, hc]
        · have ha2 : (s.errorQueue i).asserted = false := by
            revert ha
            cases (s.errorQueue i).asserted <;> simp
          simp [ha2]
    · rw [Main.cleanExpiredErrors_errorQueue]
      split <;> rfl
  · exact ⟨by decide, by decide⟩

/-- Marking an already-inactive record as not asserted leaves it
unchanged. -/
theorem ErrorRec_deassert_noop (e : ErrorRec) (h : e.asserted = false) :
    ({ e with asserted := false } : ErrorRec) = e := by
  cases e
  dsimp only at h ⊢
  rw [h]

/-- C4 counterexample: fill the main.ino store with ten distinct codes at
times 1..10, refresh the first one (slot 0) at time 11 so that it becomes
the NEWEST entry, then assert a brand-new 11th code with every slot
asserted: the code evicted is the refreshed slot-0 entry (timestamp 11),
while the entry with the globally smallest timestamp
(MICROPIRANI_FAILURE, timestamp 2) survives — eviction is round-robin by
slot position, not oldest-by-timestamp. -/
theorem C4_counterexample_round_robin_evicts_newest :
    (∀ i : Fin 10, (Ex.c4cePre.errorQueue i).asserted = true)
      ∧ (Ex.c4cePre.errorQueue 0).code = COLD_CATHODE_FAILURE
      ∧ (Ex.c4cePre.errorQueue 0).timestamp = 11
      ∧ (Ex.c4cePre.errorQueue 1).code = MICROPIRANI_FAILURE
      ∧ (Ex.c4cePre.errorQueue 1).timestamp = 2
      ∧ (∀ i : Fin 10,
          (Ex.c4cePre.errorQueue 1).timestamp ≤ (Ex.c4cePre.errorQueue i).timestamp)
      ∧ (∀ i : Fin 10, (Ex.c4ce.errorQueue i).code ≠ COLD_CATHODE_FAILURE)
      ∧ Main.isErrorPresent Ex.c4ce MICROPIRANI_FAILURE = true := by
  decide

/-- C4 amended: when a brand-new code is asserted, the slot overwritten is
the one at the round-robin cursor `currentErrorIndex`, independent of
timestamps; in the specific scenario of N+1 = 11 distinct new codes
asserted into a fresh store with strictly increasing timestamps, the
cursor points at the first (smallest-timestamp) code, so that code ends up
absent while the other ten remain asserted. -/
theorem C4_round_robin_eviction_and_capacity_scenario :
    (∀ (s : Main.Store) (c : ErrorCode) (l : ErrorLevel) (e a : String) (t : Nat),
        (List.finRange 10).find?
            (fun k => decide ((s.errorQueue k).code = c) && (s.errorQueue k).asserted)
          = none →
        (Main.addErrorToQueue s c l e a t).errorQueue
          = Function.update s.errorQueue s.currentErrorIndex
              { code := c, level := l, expected := e, actual := a, asserted := true,
                timestamp := t })
    ∧ ((∀ i : Fin 10, (Ex.c4scnPre.errorQueue i).asserted = true)
        ∧ (∀ i : Fin 10, (Ex.c4scn.errorQueue i).code ≠ COLD_CATHODE_FAILURE)
        ∧ Ex.c4survivors.all (fun c => Main.isErrorPresent Ex.c4scn c) = true) :=
  ⟨fun s c l e a t hf => Main.addErrorToQueue_of_not_found s c l e a t hf, by decide⟩

/-- C4 witness: the round-robin overwrite equation at the filled scenario
store, whose cursor is back at slot 0. -/
theorem C4_round_robin_eviction_and_capacity_scenario_witness :
    (Main.addErrorToQueue Ex.c4scnPre RELAY_NACK_ERROR ERROR "E" "A" 11).errorQueue
      = Function.update Ex.c4scnPre.errorQueue Ex.c4scnPre.currentErrorIndex
          { code := RELAY_NACK_ERROR, level := ERROR, expected := "E", actual := "A",
            asserted := true, timestamp := 11 } :=
  C4_round_robin_eviction_and_capacity_scenario.1 Ex.c4scnPre RELAY_NACK_ERROR ERROR
    "E" "A" 11 (by decide)

/-- C5: in `src/main/main.ino`, clear of a code that is inactive or never
tracked changes nothing at all in the store, clearing twice equals
clearing once, and isActive is false after any clear; the last conjunct
evaluates the part_000 failing input, where a second clear of an
already-inactive code is NOT a no-op on the caller-observable count: it
drops `errorCount` from 1 to 0 while ARGON_GATE_VALVE_ERROR is still
asserted (the array itself is unchanged). -/
theorem C5_clear_noop_idempotent :
    (∀ (s : Main.Store) (c : ErrorCode), Main.isErrorPresent s c = false →
        Main.removeErrorFromQueue s c = s)
    ∧ (∀ (s : Main.Store) (c : ErrorCode),
        Main.removeErrorFromQueue (Main.removeErrorFromQueue s c) c
          = Main.removeErrorFromQueue s c)
    ∧ (∀ (s : Main.Store) (c : ErrorCode),
        Main.isErrorPresent (Main.removeErrorFromQueue s c) c = false)
    ∧ (Ex.c5s3.errorCount = 1 ∧ Ex.c5s4.errorCount = 0
        ∧ Part0.isErrorPresent Ex.c5s4 ARGON_GATE_VALVE_ERROR = true
        ∧ (∀ i : Fin 10, Ex.c5s4.errorQueue i = Ex.c5s3.errorQueue i)) := by
  refine ⟨?_, ?_, ?_, by decide⟩
  · intro s c h
    apply Main.Store.ext
    · funext i
      rw [Main.removeErrorFromQueue_errorQueue]
      split
      · rename_i hcode
        refine ErrorRec_deassert_noop _ ?_
        by_contra hna
        have hT : (s.errorQueue i).asserted = true := by
          revert hna
          cases (s.errorQueue i).asserted <;> simp
        have hp := Main.isErrorPresent_of_slot s c i hcode hT
        rw [h] at hp
        exact Bool.false_ne_true hp
      · rfl
    · rfl
    · rfl
    · rfl
  · intro s c
    apply Main.Store.ext
    · funext i
      simp only [Main.removeErrorFromQueue_errorQueue]
      by_cases hcode : (s.errorQueue i).code = c <;> simp [hcode]
    · rfl
    · rfl
    · rfl
  · intro s c
    exact Main.isErrorPresent_removeErrorFromQueue_self s c

/-- C5 witness: clearing a never-tracked code on the power-on store is a
complete no-op. -/
theorem C5_clear_noop_idempotent_witness :
    Main.removeErrorFromQueue Main.initialStore VENT_VALVE_OPEN_ERROR = Main.initialStore :=
  C5_clear_noop_idempotent.1 Main.initialStore VENT_VALVE_OPEN_ERROR (by decide)

/-- C8 counterexample: with both valve pairs in contention and the store
filled so that the Argon entry sits in slot 0 with the round-robin cursor
back at slot 0, `checkForValveContention` ends with the Argon code NOT
asserted: the Argon phase updates slot 0 in place, then the Turbo phase
allocates a new entry at the cursor — slot 0 — overwriting the Argon
entry.  The Turbo check thus touched (evicted) the Argon pair's code. -/
theorem C8_counterexample_turbo_assert_evicts_argon :
    Main.argonContention Ex.c8st = true
      ∧ Main.turboContention Ex.c8st = true
      ∧ Main.isErrorPresent Ex.c8pre ARGON_GATE_VALVE_ERROR = true
      ∧ Main.isErrorPresent (Main.checkForValveContention Ex.c8st 20 Ex.c8pre)
          ARGON_GATE_VALVE_ERROR = false := by
  decide

/-- C8 amended: the per-pair assert/clear semantics hold with one proviso.
After the whole check, the Turbo code's state always matches Turbo
contention (the Turbo phase runs last) and carries the claimed record
fields (ERROR, "ValveOK"/"ValveContention"); the Argon code's state
matches Argon contention whenever the Turbo pair is NOT in contention.
The clear path of either phase never touches the other pair's code, but a
Turbo assert that allocates a new slot takes the round-robin cursor slot,
which can hold the Argon entry (see the counterexample), so the
no-interference part of the claim fails only in that allocation case. -/
theorem C8_valve_check_per_pair_semantics :
    (∀ (st : SwitchStates) (now : Nat) (s : Main.Store),
        Main.isErrorPresent (Main.checkForValveContention st now s) TURBO_GATE_VALVE_ERROR
          = Main.turboContention st)
    ∧ (∀ (st : SwitchStates) (now : Nat) (s : Main.Store),
        Main.turboContention st = true →
        ∃ i : Fin 10, (Main.checkForValveContention st now s).errorQueue i =
          { code := TURBO_GATE_VALVE_ERROR, level := ERROR, expected := "ValveOK",
            actual := "ValveContention", asserted := true, timestamp := now })
    ∧ (∀ (st : SwitchStates) (now : Nat) (s : Main.Store),
        Main.turboContention st = false →
        Main.isErrorPresent (Main.checkForValveContention st now s) ARGON_GATE_VALVE_ERROR
          = Main.argonContention st) := by
  refine ⟨?_, ?_, ?_⟩
  · intro st now s
    unfold Main.checkForValveContention Main.checkTurboPhase
    cases ht : Main.turboContention st
    · rw [if_neg (by simp [ht])]
      exact Main.isErrorPresent_removeErrorFromQueue_self _ _
    · rw [if_pos rfl]
      exact Main.isErrorPresent_addErrorToQueue_self _ _ _ _ _ _
  · intro st now s ht
    unfold Main.checkForValveContention Main.checkTurboPhase
    rw [if_pos ht]
    exact Main.addErrorToQueue_slot _ _ _ _ _ _
  · intro st now s ht
    unfold Main.checkForValveContention Main.checkTurboPhase
    rw [if_neg (by simp [ht])]
    rw [Main.isErrorPresent_removeErrorFromQueue_ne _ _ _ (by decide)]
    unfold Main.checkArgonPhase
    cases ha : Main.argonContention st
    · rw [if_neg (by simp [ha])]
      exact Main.isErrorPresent_removeErrorFromQueue_self _ _
    · rw [if_pos rfl]
      exact Main.isErrorPresent_addErrorToQueue_self _ _ _ _ _ _

/-- C8 witness: with Argon in contention and Turbo not, the check leaves
the Argon code asserted and the Turbo code clear. -/
theorem C8_valve_check_per_pair_semantics_witness :
    Main.isErrorPresent (Main.checkForValveContention Ex.c8wst 7 Main.initialStore)
        ARGON_GATE_VALVE_ERROR = Main.argonContention Ex.c8wst
      ∧ Main.isErrorPresent (Main.checkForValveContention Ex.c8wst 7 Main.initialStore)
          TURBO_GATE_VALVE_ERROR = Main.turboContention Ex.c8wst :=
  ⟨C8_valve_check_per_pair_semantics.2.2 Ex.c8wst 7 Main.initialStore (by decide),
   C8_valve_check_per_pair_semantics.1 Ex.c8wst 7 Main.initialStore⟩

/-- C9 counterexample: with COLD_CATHODE_FAILURE currently active and the
status query succeeding with "O" (units and tag fine), step 4 IS invoked:
the "O" branch guards only on PRESSURE_UNIT_ERROR, clears the
cold-cathode/micropirani codes, and proceeds to the safety-relay setpoint
and initial-pressure verification. -/
theorem C9_counterexample_step4_with_cold_cathode_active :
    Main.isErrorPresent Ex.c9sCC COLD_CATHODE_FAILURE = true
      ∧ Ex.c9envO.currentStatus.outcome = true
      ∧ Ex.c9envO.currentStatus.resultStr = "O"
      ∧ (Main.configurePressureSensor Ex.c9envO 10 Ex.c9sCC).2 = true := by
  decide

/-- C9 amended: for the "R" status response, step 4 is invoked exactly
when none of cold-cathode-failure, micropirani-failure or pressure-unit
errors is active (checked after the dose warning has been asserted); for
the "O" status response, step 4 is invoked exactly when no pressure-unit
error is active — an active cold-cathode or micropirani failure does not
block it there (the branch clears those codes instead). -/
theorem C9_step4_guard_characterization :
    (∀ (env : Main.SensorEnv) (now : Nat) (s : Main.Store),
        env.currentStatus.outcome = true → env.currentStatus.resultStr = "R" →
        ((Main.configurePressureSensor env now s).2 = true ↔
          (Main.isErrorPresent
              (Main.addErrorToQueue (Main.configUnitTag env now s) PRESSURE_DOSE_WARNING
                WARNING "972bOK" "PressureDoseExc" now) COLD_CATHODE_FAILURE = false
            ∧ Main.isErrorPresent
                (Main.addErrorToQueue (Main.configUnitTag env now s) PRESSURE_DOSE_WARNING
                  WARNING "972bOK" "PressureDoseExc" now) MICROPIRANI_FAILURE = false
            ∧ Main.isErrorPresent
                (Main.addErrorToQueue (Main.configUnitTag env now s) PRESSURE_DOSE_WARNING
                  WARNING "972bOK" "PressureDoseExc" now) PRESSURE_UNIT_ERROR = false)))
    ∧ (∀ (env : Main.SensorEnv) (now : Nat) (s : Main.Store),
        env.currentStatus.outcome = true → env.currentStatus.resultStr = "O" →
        ((Main.configurePressureSensor env now s).2 = true ↔
          Main.isErrorPresent (Main.configUnitTag env now s) PRESSURE_UNIT_ERROR = false)) := by
  constructor
  · intro env now s ho hr
    unfold Main.configurePressureSensor
    rw [ho, hr]
    rw [if_neg (by decide), if_neg (by decide), if_neg (by decide), if_pos rfl]
    dsimp only
    split
    · rename_i hg
      exact iff_of_true rfl hg
    · rename_i hg
      exact iff_of_false (by simp) hg
  · intro env now s ho hr
    unfold Main.configurePressureSensor
    rw [ho, hr]
    rw [if_neg (by decide), if_neg (by decide), if_neg (by decide), if_neg (by decide)]
    dsimp only
    split
    · rename_i hg
      exact iff_of_true rfl hg.2
    · rename_i hg
      exact iff_of_false (by simp) (fun hp => hg ⟨rfl, hp⟩)

/-- C9 witness: the "R"-branch guard characterization at a concrete
successful environment and the power-on store. -/
theorem C9_step4_guard_characterization_witness :
    (Main.configurePressureSensor Ex.c9envR 3 Main.initialStore).2 = true ↔
      (Main.isErrorPresent
          (Main.addErrorToQueue (Main.configUnitTag Ex.c9envR 3 Main.initialStore)
            PRESSURE_DOSE_WARNING WARNING "972bOK" "PressureDoseExc" 3)
          COLD_CATHODE_FAILURE = false
        ∧ Main.isErrorPresent
            (Main.addErrorToQueue (Main.configUnitTag Ex.c9envR 3 Main.initialStore)
              PRESSURE_DOSE_WARNING WARNING "972bOK" "PressureDoseExc" 3)
            MICROPIRANI_FAILURE = false
        ∧ Main.isErrorPresent
            (Main.addErrorToQueue (Main.configUnitTag Ex.c9envR 3 Main.initialStore)
              PRESSURE_DOSE_WARNING WARNING "972bOK" "PressureDoseExc" 3)
            PRESSURE_UNIT_ERROR = false) :=
  C9_step4_guard_characterization.1 Ex.c9envR 3 Main.initialStore rfl rfl

/-- Shifting the startup trace by one executed pass. -/
theorem passTrace_shift (env : Nat → Main.PassEnv) (k : Nat) (s : Main.Store) (n : Nat) :
    Main.passTrace env (k + 1) (Main.startupPass (env k) s) n
      = Main.passTrace env k s (n + 1) := by
  induction n with
  | zero => rfl
  | succ n ih =>
      show Main.startupPass (env (k + 1 + n)) (Main.passTrace env (k + 1)
          (Main.startupPass (env k) s) n)
        = Main.startupPass (env (k + (n + 1))) (Main.passTrace env k s (n + 1))
      rw [ih]
      have harg : k + 1 + n = k + (n + 1) := by omega
      rw [harg]

/-- When the pressure-unit configuration fails and the user-tag one
succeeds, the unit error is active after the units/tag steps. -/
theorem configUnitTag_unit_present (env : Main.SensorEnv) (now : Nat) (s : Main.Store)
    (h : env.pressureUnitResponse.outcome = false)
    (h2 : env.userTagResponse.outcome = true) :
    Main.isErrorPresent (Main.configUnitTag env now s) PRESSURE_UNIT_ERROR = true := by
  unfold Main.configUnitTag
  rw [if_pos (show (!env.pressureUnitResponse.outcome) = true by simp [h])]
  dsimp only
  rw [if_neg (show ¬ (!env.userTagResponse.outcome) = true by simp [h2])]
  rw [Main.isErrorPresent_updateLCD,
    Main.isErrorPresent_removeErrorFromQueue_ne _ _ _ (by decide),
    Main.isErrorPresent_updateLCD]
  exact Main.isErrorPresent_addErrorToQueue_self _ _ _ _ _ _

/-- Under the same conditions the units/tag steps leave an asserted
ERROR-level entry, so the store is critical. -/
theorem configUnitTag_critical (env : Main.SensorEnv) (now : Nat) (s : Main.Store)
    (h : env.pressureUnitResponse.outcome = false)
    (h2 : env.userTagResponse.outcome = true) :
    Main.hasCriticalErrors (Main.configUnitTag env now s) = true := by
  unfold Main.configUnitTag
  rw [if_pos (show (!env.pressureUnitResponse.outcome) = true by simp [h])]
  dsimp only
  rw [if_neg (show ¬ (!env.userTagResponse.outcome) = true by simp [h2])]
  rw [Main.hasCriticalErrors_updateLCD]
  obtain ⟨i, hi⟩ := Main.addErrorToQueue_slot s PRESSURE_UNIT_ERROR ERROR "MBAR"
    env.pressureUnitResponse.resultStr now
  have hrec : ((Main.removeErrorFromQueue
      (Main.updateLCD now (Main.addErrorToQueue s PRESSURE_UNIT_ERROR ERROR "MBAR"
        env.pressureUnitResponse.resultStr now)) USER_TAG_NACK_ERROR).errorQueue i)
      = { code := PRESSURE_UNIT_ERROR, level := ERROR, expected := "MBAR",
          actual := env.pressureUnitResponse.resultStr, asserted := true,
          timestamp := now } := by
    rw [Main.removeErrorFromQueue_errorQueue, Main.updateLCD_errorQueue, hi]
    rw [if_neg (by simp)]
  apply Main.hasCriticalErrors_of_slot _ i
  · rw [hrec]
  · rw [hrec]

/-- Every startup pass of the persistently failing environment ends with
the critical unit error asserted, whatever the incoming store. -/
theorem badPass_keeps_critical (s : Main.Store) :
    Main.hasCriticalErrors (Main.startupPass Ex.badPass s) = true := by
  unfold Main.startupPass
  rw [Main.hasCriticalErrors_updateLCD]
  have hcfg : ∀ s2 : Main.Store,
      (Main.configurePressureSensor Ex.badPass.sensor Ex.badPass.now s2).1
        = Main.configUnitTag Ex.badPass.sensor Ex.badPass.now s2 := by
    intro s2
    unfold Main.configurePressureSensor
    rw [if_neg (by decide), if_neg (by decide), if_neg (by decide), if_neg (by decide)]
    rw [if_neg ?hguard]
    case hguard =>
      rintro ⟨-, hp⟩
      rw [configUnitTag_unit_present Ex.badPass.sensor Ex.badPass.now s2 (by decide)
        (by decide)] at hp
      exact Bool.noConfusion hp
  rw [hcfg]
  exact configUnitTag_critical Ex.badPass.sensor Ex.badPass.now _ (by decide) (by decide)

/-- C7: the `setup()` do-while gate exits exactly on the hasCriticalErrors
predicate.  Soundness: whenever the loop exits (for any fuel bound, any
environment stream, any start store), the exit check on the just-computed
store returned false — the loop never terminates with an asserted
ERROR-level entry at its exit check.  No other exit: if every executed
pass leaves a critical error asserted, the loop runs out of any fuel
bound without exiting — there is no iteration limit or alternative exit
condition. -/
theorem C7_startup_gate_exits_iff_no_critical :
    (∀ (env : Nat → Main.PassEnv) (fuel k : Nat) (s sExit : Main.Store),
        Main.setupGate env fuel k s = some sExit → Main.hasCriticalErrors sExit = false)
    ∧ (∀ (env : Nat → Main.PassEnv) (fuel k : Nat) (s : Main.Store),
        (∀ n : Nat, Main.hasCriticalErrors (Main.passTrace env k s (n + 1)) = true) →
        Main.setupGate env fuel k s = none) := by
  constructor
  · intro env fuel
    induction fuel with
    | zero =>
        intro k s sExit h
        exact Option.noConfusion h
    | succ fuel ih =>
        intro k s sExit h
        unfold Main.setupGate at h
        dsimp only at h
        by_cases hcrit :
            Main.hasCriticalErrors (Main.startupPass (env k) s) = true
        · rw [if_pos hcrit] at h
          exact ih (k + 1) _ sExit h
        · rw [if_neg hcrit] at h
          cases hb : Main.hasCriticalErrors (Main.startupPass (env k) s)
          · injection h with h2
            rw [← h2]
            exact hb
          · exact absurd hb hcrit
  · intro env fuel
    induction fuel with
    | zero =>
        intro k s _
        rfl
    | succ fuel ih =>
        intro k s hAll
        unfold Main.setupGate
        dsimp only
        have h0 : Main.hasCriticalErrors (Main.startupPass (env k) s) = true := hAll 0
        rw [if_pos h0]
        apply ih (k + 1)
        intro n
        rw [passTrace_shift]
        exact hAll (n + 1)

/-- C7 witness: with an all-success environment the gate exits after one
pass and the exit store is not critical; with a persistently failing
pressure-unit configuration the gate never exits (evaluated at fuel 5). -/
theorem C7_startup_gate_exits_iff_no_critical_witness :
    Main.hasCriticalErrors Ex.goodExit = false
      ∧ Main.setupGate Ex.badEnvFun 5 0 Main.initialStore = none :=
  ⟨C7_startup_gate_exits_iff_no_critical.1 Ex.goodEnvFun 1 0 Main.initialStore Ex.goodExit
      (by
        unfold Main.setupGate
        dsimp only
        rw [if_neg (by decide)]
        rfl),
   C7_startup_gate_exits_iff_no_critical.2 Ex.badEnvFun 5 0 Main.initialStore
      (fun n => badPass_keeps_critical (Main.passTrace Ex.badEnvFun 0 Main.initialStore n))⟩
